import Mathlib

/-
Verification development for the Chronosonic media player
(src/chronosonic.py, a PyQt6 + yt-dlp desktop streamer).

Shallow embedding conventions:
* Python `None`-able values become `Option`.
* The widget's mutable attributes set up in `setup_data` (chronosonic.py:508-520)
  become the fields of `PlayerState`; pure-UI attributes (Qt widgets, timers,
  thumbnail cache paths) are omitted.
* Milliseconds are `Nat` (QMediaPlayer positions/durations are non-negative).
* The queue cursor `queue_index` is `Int` because the sentinel value -1 is used.
* Engine/worker side effects (starting a resolution worker, seeking the engine,
  unlinking a file, status-bar messages) are returned explicitly as data so that
  frame properties about them can be stated.
* JSON serialization to and from disk is modelled as the identity on
  well-formed payload values; a corrupt on-disk file is a distinguished
  constructor that the modelled `json.loads` rejects.
-/

namespace Chronosonic

/-- Untyped JSON values, used for the raw format/metadata blobs a `Track`
carries and for parsed on-disk documents. -/
inductive Json where
  | null : Json
  | bool (b : Bool) : Json
  | num (n : Int) : Json
  | str (s : String) : Json
  | arr (elems : List Json) : Json
  | obj (fields : List (String × Json)) : Json

/-- The `Track` dataclass (chronosonic.py:59-82): queue entries carry the six
snapshot fields plus the cached format list and the raw extractor entry. -/
structure Track where
  id : String
  title : String
  uploader : String
  webpage_url : String
  duration : Int := 0
  thumbnail : Option String := none
  formats : List Json := []
  entry : Option Json := none

/-- The restriction of a `Track` to the six fields `Track.to_dict`
(chronosonic.py:74-82) persists: formats and the raw entry are dropped.
Playlist stores and export files hold lists of these snapshots. -/
structure TrackSnapshot where
  id : String
  title : String
  uploader : String
  webpage_url : String
  duration : Int
  thumbnail : Option String

/-- `Track.to_dict` (chronosonic.py:74-82). -/
def Track.to_dict (t : Track) : TrackSnapshot :=
  { id := t.id, title := t.title, uploader := t.uploader,
    webpage_url := t.webpage_url, duration := t.duration,
    thumbnail := t.thumbnail }

/-- The mutable playback/queue state initialised in `setup_data`
(chronosonic.py:508-520).  UI-only attributes are omitted. -/
structure PlayerState where
  queue : List Track
  queue_index : Int
  shuffle_on : Bool
  repeat_mode : Nat
  point_a : Option Nat
  point_b : Option Nat
  current_temp_file : Option String
  duration_ms : Nat
  updating_slider : Bool

/-- Initial state from `setup_data` (chronosonic.py:509-520). -/
def initState : PlayerState :=
  { queue := [], queue_index := -1, shuffle_on := false, repeat_mode := 0,
    point_a := none, point_b := none, current_temp_file := none,
    duration_ms := 0, updating_slider := false }

/-- `_queue_append` (chronosonic.py:654-687): append the track built from the
entry at the tail; if the cursor was -1 (empty queue) it becomes 0.
(The QListWidget row insertion and play-button enabling are UI-only.) -/
def queue_append (s : PlayerState) (t : Track) : PlayerState :=
  let s1 := { s with queue := s.queue ++ [t] }
  if s1.queue_index = -1 then { s1 with queue_index := 0 } else s1

/-- `play_index` (chronosonic.py:716-721): out-of-bounds indices are ignored;
otherwise the cursor is set and `_prepare_and_play` is invoked for that index.
The second component records the index handed to `_prepare_and_play`, i.e.
the resolution/playback worker started by this call (`none` = no worker). -/
def play_index (s : PlayerState) (idx : Int) : PlayerState × Option Int :=
  if idx < 0 ∨ (s.queue.length : Int) ≤ idx then (s, none)
  else ({ s with queue_index := idx }, some idx)

/-- Result of a navigation call: the successor state, the index (if any) handed
to `_prepare_and_play`, and the status-bar message shown (if any). -/
structure NavResult where
  state : PlayerState
  resolution : Option Int
  status : Option String

/-- `play_next` (chronosonic.py:856-872).  The shuffle draw
`randrange(0, len(queue))` is passed in as the parameter `rand`. -/
def play_next (s : PlayerState) (rand : Nat) : NavResult :=
  if s.queue.length = 0 then { state := s, resolution := none, status := none }
  else
    let next_idx : Int := if s.shuffle_on then (rand : Int) else s.queue_index + 1
    if (s.queue.length : Int) ≤ next_idx then
      if s.repeat_mode = 1 then
        let r := play_index s 0
        { state := r.1, resolution := r.2, status := none }
      else
        { state := s, resolution := none, status := some "End of queue" }
    else
      let r := play_index s next_idx
      { state := r.1, resolution := r.2, status := none }

/-- `play_prev` (chronosonic.py:874-885). -/
def play_prev (s : PlayerState) : NavResult :=
  if s.queue.length = 0 then { state := s, resolution := none, status := none }
  else
    let p : Int := s.queue_index - 1
    let prev_idx : Int :=
      if p < 0 then (if s.repeat_mode = 1 then (s.queue.length : Int) - 1 else 0)
      else p
    let r := play_index s prev_idx
    { state := r.1, resolution := r.2, status := none }

/-- `set_point_a` (chronosonic.py:898-901): store the engine position. -/
def set_point_a (s : PlayerState) (pos : Nat) : PlayerState :=
  { s with point_a := some pos }

/-- `set_point_b` (chronosonic.py:903-909).  The guard is the literal Python
condition `if self.point_a and pos <= self.point_a`: `self.point_a` is truthy
only when it is neither `None` nor `0`.  The second component is the
status-bar message. -/
def set_point_b (s : PlayerState) (pos : Nat) : PlayerState × Option String :=
  match s.point_a with
  | some a =>
      if a ≠ 0 ∧ pos ≤ a then (s, some "Point B must be after Point A")
      else ({ s with point_b := some pos }, some "Point B set")
  | none => ({ s with point_b := some pos }, some "Point B set")

/-- `clear_ab` (chronosonic.py:911-914). -/
def clear_ab (s : PlayerState) : PlayerState :=
  { s with point_a := none, point_b := none }

/-- Effects of one `on_position_changed` event: the engine seek issued (if
any), and the (position, duration) inputs of the slider update, time-label
update and window-title progress update (each `none` when skipped).  The
numeric display values themselves are computed with Python float arithmetic
and are abstracted as the pair of inputs to that computation. -/
structure PosResult where
  seek : Option Nat
  slider : Option (Nat × Nat)
  time_label : Option (Nat × Nat)
  title : Option (Nat × Nat)

/-- Tail of `on_position_changed` after the A-B check (chronosonic.py:940-957):
slider, time label and window-title progress updates.  `player_dur` is the
live `self.player.duration()` queried when `self.duration_ms` is falsy. -/
def position_rest (s : PlayerState) (player_dur : Nat) (pos_ms : Nat) : PosResult :=
  if s.updating_slider then
    { seek := none, slider := none, time_label := none, title := none }
  else
    let dur := if s.duration_ms ≠ 0 then s.duration_ms else player_dur
    { seek := none,
      slider := if dur ≠ 0 then some (pos_ms, dur) else none,
      time_label := some (pos_ms, dur),
      title :=
        if 0 < dur ∧ s.queue.length ≠ 0 ∧ 0 ≤ s.queue_index ∧
            s.queue_index < (s.queue.length : Int) then
          some (pos_ms, dur)
        else none }

/-- `on_position_changed` (chronosonic.py:930-957): when both loop points are
set (`is not None` checks) and the position has reached B, seek the engine to
A and return, performing none of the remaining handling. -/
def on_position_changed (s : PlayerState) (player_dur : Nat) (pos_ms : Nat) :
    PosResult :=
  match s.point_a, s.point_b with
  | some a, some b =>
      if b ≤ pos_ms then
        { seek := some a, slider := none, time_label := none, title := none }
      else position_rest s player_dur pos_ms
  | some _, none => position_rest s player_dur pos_ms
  | none, _ => position_rest s player_dur pos_ms

/-- `_on_url_ready` (chronosonic.py:778-820), successful-completion effects on
the modelled state: record the new duration and the new locator.  A local
download replaces `current_temp_file` with the new path; a remote URL clears
it.  The second component lists the files this handler unlinks — the source
performs no deletion here, so it is always `[]`.  (Engine calls `setSource`,
`play`, thumbnail and UI updates are omitted.) -/
def on_url_ready (s : PlayerState) (ok : Bool) (is_local : Bool)
    (path_or_url : String) (dur : Nat) : PlayerState × List String :=
  if !ok then (s, [])
  else if is_local then
    ({ s with duration_ms := dur, current_temp_file := some path_or_url }, [])
  else
    ({ s with duration_ms := dur, current_temp_file := none }, [])

/-- `cleanup` (chronosonic.py:1144-1150): the list of files unlinked at
shutdown — exactly the currently referenced temp file, when there is one. -/
def cleanup (s : PlayerState) : List String :=
  match s.current_temp_file with
  | some p => [p]
  | none => []

/-- The playlist store `playlists.json` as an in-memory association of
playlist name to persisted track snapshots (insertion order kept, names
unique, as in a Python dict). -/
def PlaylistDB := List (String × List TrackSnapshot)

/-- Python `db.get(k)` on the store. -/
def dbGet (db : PlaylistDB) (k : String) : Option (List TrackSnapshot) :=
  match db with
  | [] => none
  | (k', v) :: rest => if k' = k then some v else dbGet rest k

/-- Python `db[k] = v` on the store. -/
def dbSet (db : PlaylistDB) (k : String) (v : List TrackSnapshot) : PlaylistDB :=
  match db with
  | [] => [(k, v)]
  | (k', v') :: rest =>
      if k' = k then (k, v) :: rest else (k', v') :: dbSet rest k v

/-- The entry dict `load_selected_playlist` rebuilds from a persisted snapshot
(chronosonic.py:1057-1067): the six snapshot fields, with `formats` reset to
`[]` and `entry` to `None`, as then consumed by `_queue_append`. -/
def trackOfSnapshot (it : TrackSnapshot) : Track :=
  { id := it.id, title := it.title, uploader := it.uploader,
    webpage_url := it.webpage_url, duration := it.duration,
    thumbnail := it.thumbnail, formats := [], entry := none }

/-- `load_selected_playlist` (chronosonic.py:1042-1070): reject the combo
placeholder, look the playlist up (`db.get(sel, [])`), bail out when empty,
otherwise clear the queue (the cursor is NOT reset) and append every
persisted track. -/
def load_selected_playlist (s : PlayerState) (db : PlaylistDB) (sel : String) :
    PlayerState :=
  if sel = "" ∨ sel = "Select playlist..." then s
  else
    let items := (dbGet db sel).getD []
    if items.isEmpty then s
    else
      let s1 := { s with queue := [] }
      items.foldl (fun st it => queue_append st (trackOfSnapshot it)) s1

/-- `rebuild_queue_from_widget` (chronosonic.py:696-714): replace the backing
queue with the tracks rebuilt from the widget rows, then adopt the widget's
current row as the cursor when one is selected (`cur ≥ 0`). -/
def rebuild_queue_from_widget (s : PlayerState) (newq : List Track) (cur : Int) :
    PlayerState :=
  let s1 := { s with queue := newq }
  if 0 ≤ cur then { s1 with queue_index := cur } else s1

/-- An export file `{ "name": ..., "tracks": [...] }`
(chronosonic.py:1132-1134); the JSON round trip through the file is modelled
as the identity on this payload. -/
structure ExportFile where
  name : String
  tracks : List TrackSnapshot

/-- `export_selected_playlist` (chronosonic.py:1114-1138): reject the combo
placeholder and a missing playlist, otherwise write the name/tracks payload.
`none` means nothing was written. -/
def export_selected_playlist (db : PlaylistDB) (sel : String) :
    Option ExportFile :=
  if sel = "" ∨ sel = "Select playlist..." then none
  else
    match dbGet db sel with
    | none => none
    | some payload => some { name := sel, tracks := payload }

/-- `import_playlist` (chronosonic.py:1090-1112) applied to a well-formed
export file: the payload is a dict, so `name = payload.get("name")` and
`tracks = payload.get("tracks")`, the `isinstance(tracks, list)` check
passes, and the store gains `db[name] = tracks`. -/
def import_playlist (db : PlaylistDB) (f : ExportFile) : PlaylistDB :=
  dbSet db f.name f.tracks

/-- The raw extractor entries consumed by `_do_search_batch`
(chronosonic.py:572-582); every field is read with `.get`, hence optional. -/
structure Entry where
  id : Option String
  title : Option String
  uploader : Option String
  channel : Option String
  webpage_url : Option String
  duration : Option Nat
  thumbnail : Option String
  formats : Option (List Json)

/-- A processed search-result dict (chronosonic.py:573-582). -/
structure SearchResult where
  id : Option String
  title : Option String
  uploader : String
  webpage_url : Option String
  duration : Nat
  thumbnail : Option String
  formats : List Json
  entry : Entry

/-- Python truthiness of an optional string (`None` and `""` are falsy). -/
def truthyStr : Option String → Bool
  | none => false
  | some s => s ≠ ""

/-- The dict built for one entry (chronosonic.py:573-582), with Python `or`
fallbacks: `uploader or channel or ""`, `duration or 0`, `formats or []`. -/
def processEntry (e : Entry) : SearchResult :=
  { id := e.id, title := e.title,
    uploader :=
      if truthyStr e.uploader then e.uploader.getD ""
      else if truthyStr e.channel then e.channel.getD ""
      else "",
    webpage_url := e.webpage_url,
    duration := e.duration.getD 0,
    thumbnail := e.thumbnail,
    formats := e.formats.getD [],
    entry := e }

/-- `_do_search_batch` (chronosonic.py:560-583).  The extraction collaborator
is modelled by `full`, the stable full result ordering per query —
`ytsearch{n}:{q}` returns its first `n` entries — so
`entries[offset:offset+batch]` is the slice below, mapped through
`processEntry`. -/
def do_search_batch (full : String → List Entry) (q : String)
    (batch offset : Nat) : List SearchResult :=
  let entries := (full q).take (offset + batch)
  let page := (entries.drop offset).take batch
  page.map processEntry

/-- The search-session attributes of `setup_data`/`start_search`
(chronosonic.py:509-511, 542-544). -/
structure SearchSession where
  query : String
  search_offset : Nat
  search_results : List SearchResult

/-- Success path of `on_search_batch` (chronosonic.py:585-607): extend the
accumulated results and set the offset to the new total. -/
def on_search_batch (s : SearchSession) (new : List SearchResult) :
    SearchSession :=
  let res := s.search_results ++ new
  { s with search_results := res, search_offset := res.length }

/-- On-disk file contents as seen by `json.loads`: either well-formed JSON or
a malformed byte string (the corrupt-store case). -/
inductive FileData where
  | malformed (raw : String) : FileData
  | wellFormed (v : Json) : FileData

/-- Python `json.loads`: raises (models as `.error`) on malformed input. -/
def json_loads : FileData → Except String Json
  | .malformed raw => .error raw
  | .wellFormed v => .ok v

/-- A read-only view of the disk: path to file contents, `none` = no file. -/
def FileSystem := String → Option FileData

/-- `load_json_file` (chronosonic.py:130-136): missing file or a `json.loads`
exception (caught and logged) both yield the default; the file system is
returned unchanged, as the function only reads. -/
def load_json_file (fs : FileSystem) (path : String) (dflt : Json) :
    Json × FileSystem :=
  match fs path with
  | none => (dflt, fs)
  | some fd =>
      match json_loads fd with
      | .ok v => (v, fs)
      | .error _ => (dflt, fs)

/-- The cursor invariant claimed for the queue: `position ∈ [-1, len)` and
the cursor either is -1 or points at an existing track. -/
def cursor_inv (s : PlayerState) : Prop :=
  -1 ≤ s.queue_index ∧ s.queue_index < (s.queue.length : Int) ∧
    (s.queue_index = -1 ∨ (s.queue[s.queue_index.toNat]?).isSome)

/-- Concrete fixture: a persisted snapshot. -/
def snapA : TrackSnapshot :=
  { id := "a", title := "A", uploader := "up", webpage_url := "uA",
    duration := 0, thumbnail := none }

/-- Concrete fixture: a second persisted snapshot. -/
def snapB : TrackSnapshot :=
  { id := "b", title := "B", uploader := "up", webpage_url := "uB",
    duration := 0, thumbnail := none }

/-- Concrete fixture tracks. -/
def trackA : Track := trackOfSnapshot snapA

/-- Concrete fixture tracks. -/
def trackB : Track := trackOfSnapshot snapB

/-- Concrete fixture store holding the one-track playlist "p". -/
def dbC1 : PlaylistDB := [("p", [snapA])]

/-- Reachable state with a two-track queue and cursor on index 1, built
through the append and navigation operations themselves. -/
def sC1 : PlayerState :=
  (play_index (queue_append (queue_append initState trackA) trackB) 1).1

/-- Reachable state with a two-track queue and cursor on index 0. -/
def sC2 : PlayerState :=
  (play_index (queue_append (queue_append initState trackA) trackB) 0).1

/-- State on the last index of a two-track queue, shuffle off, repeat Off. -/
def sC4 : PlayerState := { sC2 with queue_index := 1 }

/-- State with both loop points set. -/
def sC5 : PlayerState :=
  { initState with point_a := some 1000, point_b := some 2000 }

/-- State after pressing Set A while the engine reports position 0. -/
def sA0 : PlayerState := set_point_a initState 0

/-- State after a first resolution completed with a downloaded temp file. -/
def sR1 : PlayerState := (on_url_ready initState true true "/tmp/ytp_1" 1000).1

/-- State after a second resolution superseded the first temp file. -/
def sR2 : PlayerState := (on_url_ready sR1 true true "/tmp/ytp_2" 2000).1

/-- Concrete fixture store for the export/import round trip. -/
def dbC7 : PlaylistDB := [("mix", [snapA, snapB])]

/-- Concrete fixture disk whose playlist store file holds bytes that are not
valid JSON. -/
def fsC9 : FileSystem := fun p =>
  if p = "playlists.json" then some (.malformed "corrupt bytes") else none

/- ------------------------------------------------------------------ -/
/- Helper lemmas                                                       -/
/- ------------------------------------------------------------------ -/

/-- Bounds on the cursor imply the full invariant (the pointed-at track
exists whenever the cursor is not -1). -/
theorem cursor_inv_of_bounds (s : PlayerState) (h1 : -1 ≤ s.queue_index)
    (h2 : s.queue_index < (s.queue.length : Int)) : cursor_inv s := by
  refine ⟨h1, h2, ?_⟩
  by_cases h : s.queue_index = -1
  · exact Or.inl h
  · right
    have hlt : s.queue_index.toNat < s.queue.length := by omega
    simp [List.getElem?_eq_getElem hlt]

/-- `play_index` preserves the cursor invariant: it either refuses an
out-of-range index or installs an in-range one. -/
theorem cursor_inv_play_index (s : PlayerState) (i : Int) (h : cursor_inv s) :
    cursor_inv (play_index s i).1 := by
  unfold play_index
  split
  · exact h
  · next hcond =>
    apply cursor_inv_of_bounds <;> simp <;> omega

/-- `queue_append` preserves the cursor invariant. -/
theorem cursor_inv_queue_append (s : PlayerState) (t : Track)
    (h : cursor_inv s) : cursor_inv (queue_append s t) := by
  obtain ⟨h1, h2, -⟩ := h
  simp only [queue_append]
  split
  · apply cursor_inv_of_bounds <;> simp
  · next hne =>
    apply cursor_inv_of_bounds <;> simp <;> omega

/-- The queue after folding appends over persisted items. -/
theorem foldl_queue_append_queue (L : List TrackSnapshot) (s : PlayerState) :
    (L.foldl (fun st it => queue_append st (trackOfSnapshot it)) s).queue =
      s.queue ++ L.map trackOfSnapshot := by
  induction L generalizing s with
  | nil => simp
  | cons a L ih =>
      simp only [List.foldl_cons, List.map_cons]
      rw [ih]
      have : (queue_append s (trackOfSnapshot a)).queue =
          s.queue ++ [trackOfSnapshot a] := by
        simp only [queue_append]; split <;> rfl
      rw [this]
      simp

/-- The cursor after folding appends over persisted items: it becomes 0 at
the first append when it was -1, and is untouched otherwise. -/
theorem foldl_queue_append_index (L : List TrackSnapshot) (s : PlayerState) :
    (L.foldl (fun st it => queue_append st (trackOfSnapshot it)) s).queue_index =
      if s.queue_index = -1 then (if L.isEmpty then -1 else 0)
      else s.queue_index := by
  induction L generalizing s with
  | nil =>
      by_cases h : s.queue_index = -1 <;> simp [h]
  | cons a L ih =>
      simp only [List.foldl_cons]
      rw [ih]
      by_cases h : s.queue_index = -1
      · have hq : (queue_append s (trackOfSnapshot a)).queue_index = 0 := by
          simp only [queue_append]; rw [if_pos h]
        rw [hq]
        simp [h]
      · have hq : (queue_append s (trackOfSnapshot a)).queue_index =
            s.queue_index := by
          simp only [queue_append]; rw [if_neg h]
        rw [hq]
        simp [h]

/-- `play_next` preserves the cursor invariant for any shuffle draw. -/
theorem cursor_inv_play_next (s : PlayerState) (rand : Nat)
    (h : cursor_inv s) : cursor_inv (play_next s rand).state := by
  simp only [play_next]
  repeat' split
  all_goals first | exact h | exact cursor_inv_play_index s _ h

/-- `play_prev` preserves the cursor invariant. -/
theorem cursor_inv_play_prev (s : PlayerState) (h : cursor_inv s) :
    cursor_inv (play_prev s).state := by
  simp only [play_prev]
  split
  · exact h
  · exact cursor_inv_play_index s _ h

/-- `rebuild_queue_from_widget` preserves the cursor invariant when the
widget row is in range and the internal drag-move kept the row count. -/
theorem cursor_inv_rebuild (s : PlayerState) (newq : List Track) (cur : Int)
    (h : cursor_inv s) (hcur : -1 ≤ cur ∧ cur < (newq.length : Int))
    (hlen : newq.length = s.queue.length) :
    cursor_inv (rebuild_queue_from_widget s newq cur) := by
  obtain ⟨h1, h2, -⟩ := h
  simp only [rebuild_queue_from_widget]
  split
  · apply cursor_inv_of_bounds <;> simp <;> omega
  · apply cursor_inv_of_bounds <;> simp <;> omega

/-- `load_selected_playlist` preserves the cursor invariant provided the
prior cursor is -1 or below the loaded playlist's length. -/
theorem cursor_inv_load (s : PlayerState) (db : PlaylistDB) (sel : String)
    (h : cursor_inv s)
    (hload : ∀ its, dbGet db sel = some its →
      s.queue_index = -1 ∨ s.queue_index < (its.length : Int)) :
    cursor_inv (load_selected_playlist s db sel) := by
  obtain ⟨h1, h2, -⟩ := h
  simp only [load_selected_playlist]
  split
  · exact cursor_inv_of_bounds s h1 h2
  · split
    · exact cursor_inv_of_bounds s h1 h2
    · next hne =>
      cases hdb : dbGet db sel with
      | none =>
          rw [hdb] at hne
          simp at hne
      | some its =>
          rw [hdb] at hne
          have hli := hload its hdb
          simp only [Option.getD_some, List.isEmpty_iff] at hne
          have hpos : 0 < its.length := List.length_pos.mpr hne
          simp only [Option.getD_some]
          apply cursor_inv_of_bounds
          · rw [foldl_queue_append_index]
            dsimp only
            split
            · split <;> omega
            · omega
          · rw [foldl_queue_append_index, foldl_queue_append_queue]
            dsimp only
            simp only [List.nil_append, List.length_map]
            split
            · split
              · next hemp =>
                  exact absurd (List.isEmpty_iff.mp hemp) hne
              · omega
            · omega

/- ------------------------------------------------------------------ -/
/- Claim theorems                                                      -/
/- ------------------------------------------------------------------ -/

/-- C1, counterexample: the claimed invariant fails on the code.  From the
reachable state `sC1` (two-track queue, cursor on index 1), loading the
one-track playlist "p" clears the queue without resetting the cursor
(chronosonic.py:1054), leaving the cursor at 1 with a queue of length 1:
`position < len(queue)` is violated and the cursor's target does not exist. -/
theorem C1_counterexample :
    (load_selected_playlist sC1 dbC1 "p").queue_index = 1 ∧
    (load_selected_playlist sC1 dbC1 "p").queue.length = 1 ∧
    ¬ cursor_inv (load_selected_playlist sC1 dbC1 "p") := by
  refine ⟨by decide, by decide, ?_⟩
  intro h
  have h2 : (load_selected_playlist sC1 dbC1 "p").queue_index <
      ((load_selected_playlist sC1 dbC1 "p").queue.length : Int) := h.2.1
  revert h2
  decide

/-- C1, amended: the cursor invariant (`position ∈ [-1, len)`, and the
cursor's target track exists or the cursor is -1) is preserved by append,
by rebuild-from-reorder (for a widget row in `[-1, len)` with the drag-move
keeping the row count), and by every navigation operation; a playlist load
preserves it only when the prior cursor is -1 or below the number of loaded
tracks, because `load_selected_playlist` clears the queue without resetting
the cursor. -/
theorem C1_cursor_invariant_amended (s : PlayerState) (t : Track)
    (newq : List Track) (cur : Int) (db : PlaylistDB) (sel : String)
    (rand : Nat) (i : Int)
    (hinv : cursor_inv s)
    (hcur : -1 ≤ cur ∧ cur < (newq.length : Int))
    (hlen : newq.length = s.queue.length)
    (hload : ∀ its, dbGet db sel = some its →
      s.queue_index = -1 ∨ s.queue_index < (its.length : Int)) :
    cursor_inv (queue_append s t) ∧
    cursor_inv (rebuild_queue_from_widget s newq cur) ∧
    cursor_inv (play_index s i).1 ∧
    cursor_inv (play_next s rand).state ∧
    cursor_inv (play_prev s).state ∧
    cursor_inv (load_selected_playlist s db sel) :=
  ⟨cursor_inv_queue_append s t hinv,
   cursor_inv_rebuild s newq cur hinv hcur hlen,
   cursor_inv_play_index s i hinv,
   cursor_inv_play_next s rand hinv,
   cursor_inv_play_prev s hinv,
   cursor_inv_load s db sel hinv hload⟩

/-- C1, witness: the amended invariant theorem applied at the reachable
state `sC2` (two tracks, cursor 0), a concrete reorder, navigation inputs,
and the store `dbC1`. -/
theorem C1_cursor_invariant_witness :
    cursor_inv (queue_append sC2 trackA) ∧
    cursor_inv (load_selected_playlist sC2 dbC1 "p") := by
  have h := C1_cursor_invariant_amended sC2 trackA [trackB, trackA] 1 dbC1 "p"
    0 0 (by unfold cursor_inv; decide) (by decide) (by decide)
    (by
      intro its hits
      right
      have h2 : some [snapA] = some its := hits
      cases h2
      decide)
  exact ⟨h.1, h.2.2.2.2.2⟩

/-- C2, counterexample: navigation is not a pure cursor transition that
merely returns the target for the caller.  In the reachable state `sC2`
(two tracks, cursor 0, shuffle off), `play_next` itself invokes
`play_index`, which calls `_prepare_and_play` (chronosonic.py:721) and so
starts resolution and playback of index 1. -/
theorem C2_counterexample :
    (play_next sC2 0).resolution = some 1 ∧
    (play_next sC2 0).resolution ≠ none := by
  refine ⟨by decide, by decide⟩

/-- C2, amended: every navigation operation (`play_next`, `play_prev`,
`play_index`) changes only the cursor among the playback-state fields, and
it does not merely return the target index: whenever an in-range target is
selected, the operation itself initiates resolution and playback of exactly
the new cursor index.  Concretely: `play_index` on an in-range index starts
resolution of that index; with a non-empty queue and the cursor at least -1,
non-shuffle `play_next` starts resolution of cursor+1 when in range, of 0
when past the end with repeat All, and starts nothing (reporting end of
queue, state unchanged) when past the end otherwise; shuffle `play_next`
starts resolution of the in-range random draw; and `play_prev` always
starts resolution of its computed target (cursor-1, or the repeat-All wrap
to len-1, or the clamp to 0). -/
theorem C2_navigation_amended (s : PlayerState) (rand : Nat) (i : Int) :
    ((play_next s rand).state =
        { s with queue_index := (play_next s rand).state.queue_index } ∧
      ((play_next s rand).resolution = none ∨
        (play_next s rand).resolution =
          some (play_next s rand).state.queue_index)) ∧
    ((play_prev s).state =
        { s with queue_index := (play_prev s).state.queue_index } ∧
      ((play_prev s).resolution = none ∨
        (play_prev s).resolution = some (play_prev s).state.queue_index)) ∧
    ((play_index s i).1 =
        { s with queue_index := (play_index s i).1.queue_index } ∧
      ((play_index s i).2 = none ∨
        (play_index s i).2 = some (play_index s i).1.queue_index)) ∧
    (0 ≤ i → i < (s.queue.length : Int) →
      play_index s i = ({ s with queue_index := i }, some i)) ∧
    (s.queue.length ≠ 0 → -1 ≤ s.queue_index →
      (s.shuffle_on = false → s.queue_index + 1 < (s.queue.length : Int) →
        play_next s rand =
          { state := { s with queue_index := s.queue_index + 1 },
            resolution := some (s.queue_index + 1), status := none }) ∧
      (s.shuffle_on = false → (s.queue.length : Int) ≤ s.queue_index + 1 →
        s.repeat_mode = 1 →
        play_next s rand =
          { state := { s with queue_index := 0 },
            resolution := some 0, status := none }) ∧
      (s.shuffle_on = false → (s.queue.length : Int) ≤ s.queue_index + 1 →
        s.repeat_mode ≠ 1 →
        play_next s rand =
          { state := s, resolution := none,
            status := some "End of queue" }) ∧
      (s.shuffle_on = true → (rand : Int) < (s.queue.length : Int) →
        play_next s rand =
          { state := { s with queue_index := (rand : Int) },
            resolution := some (rand : Int), status := none }) ∧
      (s.queue_index - 1 < 0 → s.repeat_mode = 1 →
        play_prev s =
          { state := { s with queue_index := (s.queue.length : Int) - 1 },
            resolution := some ((s.queue.length : Int) - 1),
            status := none }) ∧
      (s.queue_index - 1 < 0 → s.repeat_mode ≠ 1 →
        play_prev s =
          { state := { s with queue_index := 0 },
            resolution := some 0, status := none }) ∧
      (0 ≤ s.queue_index - 1 → s.queue_index < (s.queue.length : Int) →
        play_prev s =
          { state := { s with queue_index := s.queue_index - 1 },
            resolution := some (s.queue_index - 1), status := none })) := by
  have hpi : ∀ j : Int, (play_index s j).1 =
      { s with queue_index := (play_index s j).1.queue_index } ∧
      ((play_index s j).2 = none ∨
        (play_index s j).2 = some (play_index s j).1.queue_index) := by
    intro j
    unfold play_index
    split
    · exact ⟨rfl, Or.inl rfl⟩
    · exact ⟨rfl, Or.inr rfl⟩
  have hpieq : ∀ j : Int, 0 ≤ j → j < (s.queue.length : Int) →
      play_index s j = ({ s with queue_index := j }, some j) := by
    intro j h1 h2
    unfold play_index
    rw [if_neg (by omega)]
  refine ⟨?_, ?_, hpi i, fun h1 h2 => hpieq i h1 h2, ?_⟩
  · simp only [play_next]
    repeat' split
    all_goals first | exact ⟨rfl, Or.inl rfl⟩ | exact hpi _
  · simp only [play_prev]
    split
    · exact ⟨rfl, Or.inl rfl⟩
    · exact hpi _
  · intro hne hqi
    have hnosh : ∀ hsh : s.shuffle_on = false,
        (if s.shuffle_on = true then (rand : Int)
          else s.queue_index + 1) = s.queue_index + 1 := by
      intro hsh
      rw [hsh]
      simp
    have hyessh : ∀ hsh : s.shuffle_on = true,
        (if s.shuffle_on = true then (rand : Int)
          else s.queue_index + 1) = (rand : Int) := by
      intro hsh
      rw [hsh]
      simp
    refine ⟨?_, ?_, ?_, ?_, ?_, ?_, ?_⟩
    · intro hsh hin
      simp only [play_next]
      rw [if_neg hne, hnosh hsh, if_neg (by omega),
        hpieq (s.queue_index + 1) (by omega) hin]
    · intro hsh hge h1
      simp only [play_next]
      rw [if_neg hne, hnosh hsh, if_pos hge, if_pos h1,
        hpieq 0 (by omega) (by omega)]
    · intro hsh hge h1
      simp only [play_next]
      rw [if_neg hne, hnosh hsh, if_pos hge, if_neg h1]
    · intro hsh hin
      simp only [play_next]
      rw [if_neg hne, hyessh hsh, if_neg (by omega),
        hpieq (rand : Int) (by omega) hin]
    · intro hlt h1
      simp only [play_prev]
      rw [if_neg hne, if_pos hlt, if_pos h1,
        hpieq ((s.queue.length : Int) - 1) (by omega) (by omega)]
    · intro hlt h1
      simp only [play_prev]
      rw [if_neg hne, if_pos hlt, if_neg h1, hpieq 0 (by omega) (by omega)]
    · intro hge hlt
      simp only [play_prev]
      rw [if_neg hne, if_neg (by omega), hpieq (s.queue_index - 1) hge (by omega)]

/-- C2, witness: the amended navigation theorem applied in the reachable
state `sC2` (two tracks, cursor 0, shuffle off, repeat Off): jumping to
index 1 starts resolution of 1, next starts resolution of 1, and previous
clamps to 0 and starts resolution of 0. -/
theorem C2_navigation_witness :
    play_index sC2 1 = ({ sC2 with queue_index := 1 }, some 1) ∧
    play_next sC2 5 =
      { state := { sC2 with queue_index := 1 }, resolution := some 1,
        status := none } ∧
    play_prev sC2 =
      { state := { sC2 with queue_index := 0 }, resolution := some 0,
        status := none } := by
  have h := C2_navigation_amended sC2 5 1
  have h5 := h.2.2.2.2 (by decide) (by decide)
  refine ⟨h.2.2.2.1 (by decide) (by decide), ?_, ?_⟩
  · have hn := h5.1 (by decide) (by decide)
    have e : sC2.queue_index + 1 = 1 := by decide
    rw [e] at hn
    exact hn
  · exact h5.2.2.2.2.2.1 (by decide) (by decide)

/-- C3, code evaluation at the failing input: with point A set at 0 ms
(Set A pressed while the engine reports position 0), pressing Set B at
position 0 is NOT rejected — the Python guard `if self.point_a and ...`
treats `point_a == 0` as falsy — so B is set to 0 and both loop points end
up set with B = A, contradicting the claimed rejection and B > A. -/
theorem C3_code_evaluation :
    (set_point_b sA0 0).1.point_a = some 0 ∧
    (set_point_b sA0 0).1.point_b = some 0 ∧
    (set_point_b sA0 0).2 ≠ some "Point B must be after Point A" := by
  refine ⟨by decide, by decide, by decide⟩

/-- C10: whenever point A is unset, `set_point_b` unconditionally stores the
current engine position as B (the truthiness guard short-circuits on `None`),
so the state can have B set while A is unset. -/
theorem C10_set_b_without_a (s : PlayerState) (pos : Nat)
    (h : s.point_a = none) :
    set_point_b s pos = ({ s with point_b := some pos }, some "Point B set") ∧
    (set_point_b s pos).1.point_a = none ∧
    (set_point_b s pos).1.point_b = some pos := by
  unfold set_point_b
  rw [h]
  exact ⟨rfl, rfl, rfl⟩

/-- C10, witness: `set_point_b` applied in the initial state (A unset) at
engine position 777. -/
theorem C10_witness :
    set_point_b initState 777 =
      ({ initState with point_b := some 777 }, some "Point B set") :=
  (C10_set_b_without_a initState 777 rfl).1

/-- C4: on the last index of a non-empty queue with shuffle off, `play_next`
with repeat Off leaves the whole state (in particular the cursor) unchanged
and reports "End of queue", while with repeat All it wraps the cursor to 0
(leaving the queue itself unchanged, with no end-of-queue message). -/
theorem C4_next_on_last_index (s : PlayerState) (rand : Nat)
    (hne : s.queue.length ≠ 0) (hsh : s.shuffle_on = false)
    (hidx : s.queue_index = (s.queue.length : Int) - 1) :
    (s.repeat_mode = 0 →
      play_next s rand =
        { state := s, resolution := none, status := some "End of queue" }) ∧
    (s.repeat_mode = 1 →
      (play_next s rand).state.queue_index = 0 ∧
      (play_next s rand).state.queue = s.queue ∧
      (play_next s rand).status = none) := by
  have hniv : (if s.shuffle_on = true then ((rand : Nat) : Int)
      else s.queue_index + 1) = (s.queue.length : Int) := by
    rw [hsh]
    simp only [Bool.false_eq_true, if_false]
    omega
  constructor
  · intro h0
    simp only [play_next]
    rw [if_neg hne, hniv, if_pos (le_refl _), if_neg (by omega)]
  · intro h1
    simp only [play_next]
    rw [if_neg hne, hniv, if_pos (le_refl _), if_pos h1]
    have hp : play_index s 0 = ({ s with queue_index := 0 }, some 0) := by
      unfold play_index
      rw [if_neg (by omega)]
    rw [hp]
    exact ⟨rfl, rfl, rfl⟩

/-- C4, witness: in the concrete state `sC4` (two tracks, cursor on the last
index 1, shuffle off, repeat Off), `play_next` leaves the state unchanged
and reports end of queue. -/
theorem C4_witness :
    play_next sC4 7 =
      { state := sC4, resolution := none, status := some "End of queue" } :=
  (C4_next_on_last_index sC4 7 (by decide) (by decide) (by decide)).1 rfl

/-- C5: when both loop points are set and a position-changed event reports a
position at or past B, the handler seeks the engine to A and performs none
of the other position handling of that event (no slider, time-label or
window-title update) — the A-B check precedes all other processing. -/
theorem C5_ab_loop_precedence (s : PlayerState) (a b player_dur pos_ms : Nat)
    (ha : s.point_a = some a) (hb : s.point_b = some b) (hpos : b ≤ pos_ms) :
    on_position_changed s player_dur pos_ms =
      { seek := some a, slider := none, time_label := none, title := none } := by
  simp only [on_position_changed, ha, hb]
  rw [if_pos hpos]

/-- C5, witness: in the state `sC5` (A = 1000 ms, B = 2000 ms), a position
event at 2500 ms yields exactly a seek to 1000 ms and nothing else. -/
theorem C5_witness :
    on_position_changed sC5 0 2500 =
      { seek := some 1000, slider := none, time_label := none, title := none } :=
  C5_ab_loop_precedence sC5 1000 2000 0 2500 rfl rfl (by decide)

/-- C6, counterexample: a superseded temporary file is never deleted.  After
two successful download resolutions ("/tmp/ytp_1" then "/tmp/ytp_2") and
shutdown, neither completion handler unlinks anything and cleanup unlinks
only the most recent file, so the superseded "/tmp/ytp_1" is left behind
with no process crash involved. -/
theorem C6_counterexample :
    (on_url_ready initState true true "/tmp/ytp_1" 1000).2 = [] ∧
    (on_url_ready sR1 true true "/tmp/ytp_2" 2000).2 = [] ∧
    cleanup sR2 = ["/tmp/ytp_2"] ∧
    "/tmp/ytp_1" ∉
      (on_url_ready initState true true "/tmp/ytp_1" 1000).2 ++
        (on_url_ready sR1 true true "/tmp/ytp_2" 2000).2 ++ cleanup sR2 := by
  refine ⟨by decide, by decide, by decide, by decide⟩

/-- C6, amended: applying a new locator deletes nothing — `_on_url_ready`
only replaces the `current_temp_file` reference — and shutdown deletes
exactly the temp file of the most recent resolution (when it was a local
download); temp files superseded during a session are left behind. -/
theorem C6_temp_file_amended (s : PlayerState) (ok is_local : Bool)
    (p : String) (d : Nat) :
    (on_url_ready s ok is_local p d).2 = [] ∧
    cleanup s = s.current_temp_file.toList := by
  constructor
  · unfold on_url_ready
    repeat' split
    all_goals rfl
  · unfold cleanup
    cases s.current_temp_file <;> rfl

/-- Lookup after update on the playlist store. -/
theorem dbGet_dbSet (db : PlaylistDB) (k : String) (v : List TrackSnapshot) :
    dbGet (dbSet db k v) k = some v := by
  induction db with
  | nil => simp [dbSet, dbGet]
  | cons hd tl ih =>
      obtain ⟨k2, v2⟩ := hd
      by_cases h : k2 = k
      · simp [dbSet, dbGet, h]
      · simp only [dbSet, dbGet, if_neg h]
        exact ih

/-- C7: exporting a stored playlist writes exactly its name and its ordered
track snapshots, and importing that file into any store yields a store in
which that name maps to the same ordered snapshots (the snapshots already
lack the dropped formats/raw-metadata fields). -/
theorem C7_export_import_roundtrip (db db2 : PlaylistDB) (sel : String)
    (ts : List TrackSnapshot)
    (h1 : sel ≠ "") (h2 : sel ≠ "Select playlist...")
    (h3 : dbGet db sel = some ts) :
    export_selected_playlist db sel = some { name := sel, tracks := ts } ∧
    ∀ f, export_selected_playlist db sel = some f →
      dbGet (import_playlist db2 f) sel = some ts := by
  have hexp : export_selected_playlist db sel =
      some { name := sel, tracks := ts } := by
    unfold export_selected_playlist
    rw [if_neg (by simp [h1, h2]), h3]
  refine ⟨hexp, ?_⟩
  intro f hf
  rw [hexp] at hf
  injection hf with hf2
  subst hf2
  unfold import_playlist
  exact dbGet_dbSet db2 sel ts

/-- C7, witness: round-tripping the concrete playlist "mix" of `dbC7`
through export and an import into the empty store. -/
theorem C7_witness :
    dbGet (import_playlist [] { name := "mix", tracks := [snapA, snapB] })
      "mix" = some [snapA, snapB] :=
  (C7_export_import_roundtrip dbC7 [] "mix" [snapA, snapB]
      (by decide) (by decide) rfl).2
    { name := "mix", tracks := [snapA, snapB] }
    (C7_export_import_roundtrip dbC7 [] "mix" [snapA, snapB]
      (by decide) (by decide) rfl).1

/-- Two size-10 slices at offsets 0 and 10 of prefixes of a list concatenate
to its 20-prefix. -/
theorem take_batch_slices {α : Type} (M : List α) :
    (M.take 10).take 10 ++ ((M.take 20).drop 10).take 10 =
      (M.take 20).take 20 := by
  have e1 : (M.take 10).take 10 = M.take 10 := by
    simp [List.take_take]
  have e2 : ((M.take 20).drop 10).take 10 = (M.take 20).drop 10 := by
    apply List.take_of_length_le
    simp only [List.length_drop, List.length_take]
    omega
  have e3 : (M.take 20).take 20 = M.take 20 := by
    simp [List.take_take]
  have h10 : M.take 10 = (M.take 20).take 10 := by
    simp [List.take_take]
  rw [e1, e2, e3, h10, List.take_append_drop]

/-- C8: assuming the extraction collaborator yields a stable result ordering
per query (modelled by `full`), fetching two sequential batches of size 10
at offsets 0 and 10 and accumulating them in the session yields exactly the
result list of a single batch request of total 20. -/
theorem C8_pagination (full : String → List Entry) (q : String) :
    do_search_batch full q 10 0 ++ do_search_batch full q 10 10 =
      do_search_batch full q 20 0 ∧
    (on_search_batch
        (on_search_batch { query := q, search_offset := 0, search_results := [] }
          (do_search_batch full q 10 0))
        (do_search_batch full q 10 10)).search_results =
      do_search_batch full q 20 0 := by
  have hmain : do_search_batch full q 10 0 ++ do_search_batch full q 10 10 =
      do_search_batch full q 20 0 := by
    unfold do_search_batch
    norm_num [List.drop_zero]
    exact take_batch_slices (List.map processEntry (full q))
  refine ⟨hmain, ?_⟩
  simp only [on_search_batch, List.nil_append]
  exact hmain

/-- C9: loading a store file whose on-disk contents are not valid JSON
returns the supplied empty/default structure, the `json.loads` exception is
caught inside `load_json_file` (the function returns a value), and the file
system is unchanged (the file is only read, never written). -/
theorem C9_corrupt_store_load (fs : FileSystem) (path raw : String)
    (dflt : Json) (h : fs path = some (.malformed raw)) :
    load_json_file fs path dflt = (dflt, fs) := by
  unfold load_json_file
  rw [h]
  rfl

/-- C9, witness: the concrete disk `fsC9`, whose playlist store file holds
corrupt bytes, loads as the empty store `obj []` with the disk unchanged. -/
theorem C9_witness :
    load_json_file fsC9 "playlists.json" (Json.obj []) =
      (Json.obj [], fsC9) :=
  C9_corrupt_store_load fsC9 "playlists.json" "corrupt bytes" (Json.obj [])
    (by simp [fsC9])

end Chronosonic
